import Mathlib

/-!
Verification development for a class-scheduling backend.

The code under verification books recurring class sessions against two shared
resources (a physical room and an instructor).  Its core computations are:

* `generateAllClassSessions` (utils/schedule-generator.util.ts): expands a
  recurrence payload into concrete dated sessions, validating each
  (date, time-slot) pair via `createValidClassSessionFromDateAndTimes` and
  applying a 30-minute lead-time filter;
* `findDetailedSchedulingConflict` (controllers/class.controller.ts): checks
  candidate sessions against every other stored series on the target room and
  instructor using the half-open overlap predicate
  `proposed.start < existing.end && proposed.end > existing.start`;
* `updateEntireClassSeries`: regenerates a series and re-applies stored
  per-occurrence exceptions (modified / cancelled overrides);
* `updateSingleInstance`: moves one occurrence and upserts an exception record;
* `createClassSeries`: generate → conflict-check → persist.

Modelling conventions of this shallow embedding:

* A JavaScript `Date` value is modelled as its number of minutes since the
  Unix epoch (a `Nat`); a calendar day is its day number since 1970-01-01
  (also a `Nat`).  All dates handled by the service are post-epoch.
  `Date.prototype.setHours(h, m, 0, 0)` keeps the calendar day and replaces
  the clock time; hours beyond 23 roll over into later days exactly as in JS,
  which the model reproduces because the clock offset is simply added.
* Parsing of `"HH:mm"` strings is modelled by `Option (Nat × Nat)` fields: a
  `none` stands for a string whose `split(":").map(Number)` produced a `NaN`.
* Dates arriving in request payloads are modelled by `DateField`, separating
  an absent (falsy) field from a present-but-unparsable one, because
  `generateAllClassSessions` treats the two differently.
* Thrown `Error`s are modelled by `Except GenError`; each `GenError`
  constructor corresponds to exactly one `throw` site of the source.  Errors
  that the source catches locally (the per-slot `try/catch` blocks that only
  `console.warn`) are modelled by dropping the offending element, exactly as
  the source continues after warning.
* MongoDB queries are modelled over an explicit list of stored series
  documents: `findOne(q)` is `List.find?` of the query predicate, and the
  `$elemMatch`/`$or` conflict query is the boolean predicate it denotes.
  `populate` is modelled by name-lookup functions passed explicitly.
-/

namespace ClassScheduler

/-! ## Time and Gregorian calendar model -/

/-- Calendar day of a date-time (JS `Date` truncated to its day). -/
def dayOf (t : Nat) : Nat := t / 1440

/-- JS `setHours(h, m, 0, 0)` on a date: same calendar day, clock time `h:m`.
Hour values ≥ 24 roll over into following days, as in JS. -/
def setClock (t : Nat) (h m : Nat) : Nat := (t / 1440) * 1440 + h * 60 + m

/-- Midnight of a calendar day, as a date-time. -/
def dayStart (d : Nat) : Nat := d * 1440

/-- JS `getDay()` / date-fns weekday: 0 = Sunday … 6 = Saturday.
1970-01-01 was a Thursday (= 4). -/
def weekdayOf (d : Nat) : Nat := (d + 4) % 7

def isLeapYear (y : Nat) : Bool := y % 4 == 0 && (y % 100 != 0 || y % 400 == 0)

/-- Number of days in month `m` of year `y` (date-fns `lastDayOfMonth(..).getDate()`). -/
def lastDayOfMonthNum (y m : Nat) : Nat :=
  if m == 2 then (if isLeapYear y then 29 else 28)
  else if m == 4 || m == 6 || m == 9 || m == 11 then 30
  else 31

/-- Gregorian (year, month, day) of a day number (days since 1970-01-01).
Standard civil-from-days algorithm, valid for every post-epoch day number. -/
def civilFromDays (z : Nat) : Nat × Nat × Nat :=
  let z' := z + 719468
  let era := z' / 146097
  let doe := z' % 146097
  let yoe := (doe - doe / 1460 + doe / 36524 - doe / 146096) / 365
  let y := yoe + era * 400
  let doy := doe - (365 * yoe + yoe / 4 - yoe / 100)
  let mp := (5 * doy + 2) / 153
  let d := doy - (153 * mp + 2) / 5 + 1
  let m := if mp < 10 then mp + 3 else mp - 9
  (if m ≤ 2 then y + 1 else y, m, d)

/-- Day number of a Gregorian date (inverse of `civilFromDays` on valid dates
with year ≥ 1970). -/
def daysFromCivil (y m d : Nat) : Nat :=
  let y' := if m ≤ 2 then y - 1 else y
  let era := y' / 400
  let yoe := y' % 400
  let doy := (153 * (if m > 2 then m - 3 else m + 9) + 2) / 5 + d - 1
  let doe := yoe * 365 + yoe / 4 - yoe / 100 + doy
  era * 146097 + doe - 719468

/-- JS `getFullYear()` of a day number. -/
def yearOf (d : Nat) : Nat := (civilFromDays d).1

/-- JS `getMonth() + 1` of a day number (months numbered 1–12 here). -/
def monthOf (d : Nat) : Nat := (civilFromDays d).2.1

/-- JS `getDate()` of a day number: the day of the month, 1-based. -/
def dateOf (d : Nat) : Nat := (civilFromDays d).2.2

/-- date-fns `isLastDayOfMonth` on a day number. -/
def isLastDayOfMonth (d : Nat) : Bool :=
  dateOf d == lastDayOfMonthNum (yearOf d) (monthOf d)

/-- JS `a % b === 0` for non-negative integers: when `b = 0` the remainder is
`NaN`, so the comparison with `0` is false. -/
def jsModEqZero (a b : Nat) : Bool := b != 0 && a % b == 0

/-! ## Occurrence generator (utils/schedule-generator.util.ts) -/

/-- One pre-generated class session (`ClassSession` of the source). -/
structure ClassSession where
  sessionStartDateTime : Nat
  sessionEndDateTime : Nat
deriving DecidableEq

/-- One entry of `dailyTimeSlots`, with its `"HH:mm"` strings already taken
through `split(":").map(Number)`: `none` models a `NaN` parse. -/
structure TimeSlot where
  startTime24h : Option (Nat × Nat)
  endTime24h : Option (Nat × Nat)
deriving DecidableEq

/-- The `throw` sites of the generator, one constructor per distinct site. -/
inductive GenError where
  /-- "Invalid time format received …" (helper, NaN parse) -/
  | invalidTimeFormat
  /-- "Invalid time range: end time must be after start time …" (helper) -/
  | invalidTimeRange
  /-- "Class duration is too short …" (helper) -/
  | durationTooShort
  /-- "At least one time slot (dailyTimeSlots) is required" -/
  | timeSlotsRequired
  /-- "Custom pattern mode requires both seriesStartDate and seriesEndDate" -/
  | customPatternMissingDates
  /-- "Invalid date format in custom pattern mode" -/
  | customPatternInvalidDate
  /-- "seriesStartDate cannot be after seriesEndDate" -/
  | customStartAfterEnd
  /-- "No valid sessions generated in custom mode. …" -/
  | customNoSessions
  /-- "Invalid seriesStartDate: …" -/
  | invalidSeriesStartDate
  /-- "No future sessions could be generated. …" -/
  | noFutureSessions
deriving DecidableEq

/-- A date-valued payload field: absent (falsy), present but unparsable
(`new Date(x)` is `Invalid Date`), or a parsed calendar day. -/
inductive DateField where
  | missing
  | invalid
  | valid (day : Nat)
deriving DecidableEq

/-- `new Date(field)` — `some` day on success, `none` for `NaN` timestamps. -/
def DateField.toDate : DateField → Option Nat
  | .valid d => some d
  | _ => none

/-- The request payload fields consumed by `generateAllClassSessions`, with
defaults as destructured in the source.  Manually chosen dates are modelled
post-`new Date(dateString)`: `none` is an unparsable entry. -/
structure GenPayload where
  seriesStartDate : DateField := .missing
  seriesEndDate : DateField := .missing
  recurrenceType : String := ""
  dailyTimeSlots : List TimeSlot := []
  selectedWeekdays : List Nat := []
  selectedMonthDays : List Nat := []
  repeatEveryXWeeksOrDays : Nat := 1
  manuallyChosenDates : List (Option Nat) := []

/-- `createValidClassSessionFromDateAndTimes(baseDate, start, end)`:
parse check, build both date-times on the base day, then the two range
validations, in source order. -/
def createValidClassSessionFromDateAndTimes (baseDate : Nat) (slot : TimeSlot) :
    Except GenError ClassSession :=
  match slot.startTime24h, slot.endTime24h with
  | some (startHour, startMinute), some (endHour, endMinute) =>
    let sessionStart := setClock (dayStart baseDate) startHour startMinute
    let sessionEnd := setClock (dayStart baseDate) endHour endMinute
    if sessionEnd ≤ sessionStart then .error .invalidTimeRange
    else if sessionEnd - sessionStart < 30 then .error .durationTooShort
    else .ok ⟨sessionStart, sessionEnd⟩
  | _, _ => .error .invalidTimeFormat

/-- The body of every per-slot loop of the generator: try to build the
session (a validation error is caught and the slot skipped with a warning),
then keep it only if it starts at or after `now + 30` minutes. -/
def sessionFromSlot (now : Nat) (d : Nat) (slot : TimeSlot) : Option ClassSession :=
  match createValidClassSessionFromDateAndTimes d slot with
  | .error _ => none
  | .ok session =>
    if now + 30 ≤ session.sessionStartDateTime then some session else none

/-- The same per-slot body without the lead-time filter: every session that
survives validation. -/
def validSessionFromSlot (d : Nat) (slot : TimeSlot) : Option ClassSession :=
  match createValidClassSessionFromDateAndTimes d slot with
  | .error _ => none
  | .ok session => some session

/-- The day cursor walk `while (current <= boundary) … addDays(current, 1)`
as the list of visited days. -/
def dayRange (s e : Nat) : List Nat := (List.range (e + 1 - s)).map (s + ·)

/-- Day-match predicate of the standard `while` loop (`daily` / `weekly` /
`monthly` / `none` branches; any other type leaves the flag false). -/
def shouldIncludeDay (p : GenPayload) (startDay cursor : Nat) : Bool :=
  if p.recurrenceType == "daily" then
    jsModEqZero (cursor - startDay) p.repeatEveryXWeeksOrDays
  else if p.recurrenceType == "weekly" then
    jsModEqZero ((cursor - startDay) / 7) p.repeatEveryXWeeksOrDays
      && p.selectedWeekdays.contains (weekdayOf cursor)
  else if p.recurrenceType == "monthly" then
    p.selectedMonthDays.contains (dateOf cursor)
      || (isLastDayOfMonth cursor
          && p.selectedMonthDays.any (fun d => lastDayOfMonthNum (yearOf cursor) (monthOf cursor) < d))
  else p.recurrenceType == "none"

/-- Day-match predicate of custom pattern mode: week-interval check with
`Math.max(1, repeat || 1)`, and an empty `selectedWeekdays` matches any day. -/
def customPatternMatch (p : GenPayload) (startDay cursor : Nat) : Bool :=
  jsModEqZero ((cursor - startDay) / 7) (max 1 p.repeatEveryXWeeksOrDays)
    && (p.selectedWeekdays.isEmpty || p.selectedWeekdays.contains (weekdayOf cursor))

/-- Days visited by the standard loop: none when the boundary is an invalid
date (every `<=` comparison against `NaN` is false), and only the first day
for `recurrenceType === "none"` (the loop `break`s after one iteration). -/
def standardDays (p : GenPayload) (s : Nat) (boundary : Option Nat) : List Nat :=
  match boundary with
  | none => []
  | some e => if p.recurrenceType == "none" then (dayRange s e).take 1 else dayRange s e

/-- `seriesEndDate ? new Date(seriesEndDate) : currentDateCursor`. -/
def standardBoundary (p : GenPayload) (s : Nat) : Option Nat :=
  match p.seriesEndDate with
  | .missing => some s
  | .invalid => none
  | .valid e => some e

/-- `generateAllClassSessions(payload)` at generation time `now`.
Structure and check order follow the source exactly: empty-slot check, the
two custom modes, then the standard cursor walk with its final safety net. -/
def generateAllClassSessions (now : Nat) (p : GenPayload) :
    Except GenError (List ClassSession) :=
  if p.dailyTimeSlots.isEmpty then .error .timeSlotsRequired
  else if p.recurrenceType == "custom" then
    if !p.manuallyChosenDates.isEmpty then
      let sessions := p.manuallyChosenDates.flatMap (fun md =>
        match md with
        | none => []
        | some d => p.dailyTimeSlots.filterMap (sessionFromSlot now d))
      if sessions.isEmpty then .error .customNoSessions else .ok sessions
    else if p.seriesStartDate == .missing || p.seriesEndDate == .missing then
      .error .customPatternMissingDates
    else
      match p.seriesStartDate.toDate, p.seriesEndDate.toDate with
      | some s, some e =>
        if e < s then .error .customStartAfterEnd
        else
          let sessions := (dayRange s e).flatMap (fun d =>
            if customPatternMatch p s d then
              p.dailyTimeSlots.filterMap (sessionFromSlot now d)
            else [])
          if sessions.isEmpty then .error .customNoSessions else .ok sessions
      | _, _ => .error .customPatternInvalidDate
  else
    match p.seriesStartDate.toDate with
    | none => .error .invalidSeriesStartDate
    | some s =>
      let sessions := (standardDays p s (standardBoundary p s)).flatMap (fun d =>
        if shouldIncludeDay p s d then
          p.dailyTimeSlots.filterMap (sessionFromSlot now d)
        else [])
      if sessions.isEmpty then .error .noFutureSessions else .ok sessions

/-- All candidate sessions of a payload that survive per-slot validation,
before the lead-time filter is applied. -/
def candidateSessions (p : GenPayload) : List ClassSession :=
  if p.recurrenceType == "custom" then
    if !p.manuallyChosenDates.isEmpty then
      p.manuallyChosenDates.flatMap (fun md =>
        match md with
        | none => []
        | some d => p.dailyTimeSlots.filterMap (validSessionFromSlot d))
    else
      match p.seriesStartDate.toDate, p.seriesEndDate.toDate with
      | some s, some e =>
        if e < s then []
        else (dayRange s e).flatMap (fun d =>
          if customPatternMatch p s d then
            p.dailyTimeSlots.filterMap (validSessionFromSlot d)
          else [])
      | _, _ => []
  else
    match p.seriesStartDate.toDate with
    | none => []
    | some s =>
      (standardDays p s (standardBoundary p s)).flatMap (fun d =>
        if shouldIncludeDay p s d then
          p.dailyTimeSlots.filterMap (validSessionFromSlot d)
        else [])

/-- The pre-walk validation of `generateAllClassSessions`: the error it
throws before any session is generated, if any. -/
def genPrecheck (p : GenPayload) : Option GenError :=
  if p.dailyTimeSlots.isEmpty then some .timeSlotsRequired
  else if p.recurrenceType == "custom" then
    if !p.manuallyChosenDates.isEmpty then none
    else if p.seriesStartDate == .missing || p.seriesEndDate == .missing then
      some .customPatternMissingDates
    else
      match p.seriesStartDate.toDate, p.seriesEndDate.toDate with
      | some s, some e => if e < s then some .customStartAfterEnd else none
      | _, _ => some .customPatternInvalidDate
  else
    match p.seriesStartDate.toDate with
    | none => some .invalidSeriesStartDate
    | some _ => none

/-- The empty-result error of each mode: the custom safety net for `custom`,
the final safety net otherwise. -/
def genEmptyError (p : GenPayload) : GenError :=
  if p.recurrenceType == "custom" then .customNoSessions else .noFutureSessions

/-! ## Stored data model (models/class.model.ts + controller usage) -/

/-- One subdocument of `preGeneratedClassSessions`, with its Mongo
subdocument id (looked up by `preGeneratedClassSessions.id(sessionId)`). -/
structure StoredSession where
  subId : Nat
  sessionStartDateTime : Nat
  sessionEndDateTime : Nat
deriving DecidableEq

/-- One record of a series' `exceptions` array.  `status` is the string the
controllers store ("modified" or "cancelled"); `newStart`/`newEnd` are absent
on cancellation records. -/
structure ExceptionRec where
  originalStart : Nat
  status : String
  newStart : Option Nat := none
  newEnd : Option Nat := none
  reason : String := ""
deriving DecidableEq

/-- One `ClassSchedule` document, restricted to the fields the core logic
reads.  `docId` models Mongo's `_id`. -/
structure ClassScheduleDoc where
  docId : Nat
  assignedRoom : Nat
  assignedInstructor : Nat
  preGeneratedClassSessions : List StoredSession
  exceptions : List ExceptionRec
deriving DecidableEq

def StoredSession.toSession (s : StoredSession) : ClassSession :=
  ⟨s.sessionStartDateTime, s.sessionEndDateTime⟩

/-! ## Conflict detector (`findDetailedSchedulingConflict`) -/

/-- The overlap predicate the detector uses, both in the Mongo query and in
the in-memory `find`: `proposed.start < existing.end && proposed.end >
existing.start`. -/
def sessionsOverlap (proposed : ClassSession) (existing : StoredSession) : Bool :=
  proposed.sessionStartDateTime < existing.sessionEndDateTime
    && proposed.sessionEndDateTime > existing.sessionStartDateTime

/-- The `$elemMatch`/`$or` clause of the conflict query: some stored session
overlaps some requested session. -/
def elemMatchOverlap (stored : List StoredSession) (requested : List ClassSession) : Bool :=
  stored.any (fun existing => requested.any (fun newSess => sessionsOverlap newSess existing))

/-- `baseQuery(field, id)` as a predicate on one stored document:
resource-field equality, the optional `_id: { $ne: ignoreSeriesId }` clause,
and the session-overlap `$elemMatch`. -/
def baseQueryMatches (getField : ClassScheduleDoc → Nat) (id : Nat)
    (ignoreSeriesId : Option Nat) (requested : List ClassSession)
    (series : ClassScheduleDoc) : Bool :=
  getField series == id
    && (match ignoreSeriesId with
        | some ignored => series.docId != ignored
        | none => true)
    && elemMatchOverlap series.preGeneratedClassSessions requested

/-- The `entityName` alternatives of the conflict message (step 5 of the
detector), carrying the populated resource names the source interpolates. -/
inductive ConflictEntity where
  | bothBusy (instructorName roomName : String)
  | instructorBusy (instructorName : String)
  | roomBusy (roomName : String)
deriving DecidableEq

/-- The value the detector returns on conflict.  The formatted message is
modelled by its semantic parts: the entity description and the start/end of
the `overlappingSession` whose window the message prints (`none` models the
`overlappingSession!` non-null assertion target being absent). -/
structure ConflictReport where
  field : String
  entity : ConflictEntity
  busyOn : Option (Nat × Nat)
deriving DecidableEq

/-- `findDetailedSchedulingConflict(requestedSessions, targetRoomId,
targetInstructorId, ignoreSeriesId)` over an explicit store.  `findOne` is
the first matching document; `populate(..).name` / `.roomName` are the
`instructorName` / `roomName` lookup functions. -/
def findDetailedSchedulingConflict (store : List ClassScheduleDoc)
    (instructorName roomName : Nat → String)
    (requestedSessions : List ClassSession)
    (targetRoomId targetInstructorId : Nat)
    (ignoreSeriesId : Option Nat) : Option ConflictReport :=
  let instructorConflict := store.find?
    (baseQueryMatches (·.assignedInstructor) targetInstructorId ignoreSeriesId requestedSessions)
  let roomConflict := store.find?
    (baseQueryMatches (·.assignedRoom) targetRoomId ignoreSeriesId requestedSessions)
  match instructorConflict, roomConflict with
  | none, none => none
  | _, _ =>
    let conflictSource := match instructorConflict with
      | some ic => some ic
      | none => roomConflict
    let overlappingSession := conflictSource.bind (fun cs =>
      cs.preGeneratedClassSessions.find? (fun existing =>
        requestedSessions.any (fun proposed => sessionsOverlap proposed existing)))
    let busyOn := overlappingSession.map (fun s => (s.sessionStartDateTime, s.sessionEndDateTime))
    match instructorConflict, roomConflict with
    | some ic, some rc =>
      some ⟨"assignedInstructor",
            .bothBusy (instructorName ic.assignedInstructor) (roomName rc.assignedRoom), busyOn⟩
    | some ic, none =>
      some ⟨"assignedInstructor", .instructorBusy (instructorName ic.assignedInstructor), busyOn⟩
    | none, some rc =>
      some ⟨"assignedRoom", .roomBusy (roomName rc.assignedRoom), busyOn⟩
    | none, none => none

/-! ## Exception reconciliation (`updateEntireClassSeries`, step 2) -/

/-- The `map` step of the protection logic: replace a freshly generated
session by its `modified` exception's `newStart!`/`newEnd!` when one matches
its start.  The non-null assertions are modelled by `Option.getD 0`. -/
def applyManualEdit (exceptions : List ExceptionRec) (sess : ClassSession) : ClassSession :=
  match exceptions.find? (fun ex =>
      ex.originalStart == sess.sessionStartDateTime && ex.status == "modified") with
  | some manualEdit =>
    { sess with
      sessionStartDateTime := manualEdit.newStart.getD 0
      sessionEndDateTime := manualEdit.newEnd.getD 0 }
  | none => sess

/-- Does a `cancelled` exception match this session's start? -/
def cancelledMatch (exceptions : List ExceptionRec) (sess : ClassSession) : Bool :=
  exceptions.any (fun ex =>
    ex.originalStart == sess.sessionStartDateTime && ex.status == "cancelled")

/-- Step 2 of `updateEntireClassSeries`: `newSessions.map(…).filter(…)` —
apply manual edits, then remove previously cancelled sessions. -/
def reconcileExceptions (exceptions : List ExceptionRec)
    (newSessions : List ClassSession) : List ClassSession :=
  (newSessions.map (applyManualEdit exceptions)).filter
    (fun sess => !cancelledMatch exceptions sess)

/-- The reconciliation as §4.3 of the specification words it: replace the
start/end of each generated session matched by a `modified` exception, and
drop each generated session whose (generated) start matches a `cancelled`
exception; every other session passes through unchanged.  Kept separate from
`reconcileExceptions` (the source's computation) to compare the two. -/
def reconcileExceptionsSpec (exceptions : List ExceptionRec)
    (newSessions : List ClassSession) : List ClassSession :=
  newSessions.filterMap (fun sess =>
    if cancelledMatch exceptions sess then none
    else some (applyManualEdit exceptions sess))

/-! ## Single-instance update (`updateSingleInstance`) -/

/-- Update the first element satisfying `p` in place (the effect of
`findIndex` followed by an indexed assignment). -/
def updateFirst (p : α → Bool) (f : α → α) : List α → List α
  | [] => []
  | x :: xs => if p x then f x :: xs else x :: updateFirst p f xs

/-- Outcome of a single-instance update request. -/
inductive UpdateResult where
  | notFoundSeries
  | notFoundSession
  | conflict (r : ConflictReport)
  | ok (series : ClassScheduleDoc)
deriving DecidableEq

/-- `updateSingleInstance` on the series addressed by `seriesId`: look up the
series and the session subdocument, conflict-check the new window against
every *other* series, then upsert the exception record — keyed on the
session's **current** `sessionStartDateTime` — and move the session in place.
`store` is the whole `ClassSchedule` collection (the updated series
included); `reason?` is the optional request-body reason. -/
def updateSingleInstance (store : List ClassScheduleDoc)
    (instructorName roomName : Nat → String)
    (seriesId sessionId : Nat) (newStart newEnd : Nat)
    (reason? : Option String) : UpdateResult :=
  match store.find? (fun s => s.docId == seriesId) with
  | none => .notFoundSeries
  | some series =>
    match series.preGeneratedClassSessions.find? (fun s => s.subId == sessionId) with
    | none => .notFoundSession
    | some session =>
      match findDetailedSchedulingConflict store instructorName roomName
          [⟨newStart, newEnd⟩] series.assignedRoom series.assignedInstructor
          (some seriesId) with
      | some r => .conflict r
      | none =>
        let matchesOriginal := fun (ex : ExceptionRec) =>
          ex.originalStart == session.sessionStartDateTime
        let exceptions :=
          if series.exceptions.any matchesOriginal then
            updateFirst matchesOriginal
              (fun ex => { ex with newStart := some newStart, newEnd := some newEnd })
              series.exceptions
          else
            series.exceptions ++
              [{ originalStart := session.sessionStartDateTime
                 status := "modified"
                 newStart := some newStart
                 newEnd := some newEnd
                 reason := reason?.getD "Manual override" }]
        let sessions := updateFirst (fun s => s.subId == sessionId)
          (fun s => { s with sessionStartDateTime := newStart, sessionEndDateTime := newEnd })
          series.preGeneratedClassSessions
        .ok { series with exceptions := exceptions, preGeneratedClassSessions := sessions }

/-! ## Booking coordinator (`createClassSeries`) and its concurrency model -/

/-- The generator/conflict-check fields of one create request's body. -/
structure BookingRequest where
  body : GenPayload
  assignedRoom : Nat
  assignedInstructor : Nat

/-- `ClassSchedule.create({...req.body, preGeneratedClassSessions})`:
the persisted document of a successful create.  Subdocument ids are assigned
positionally. -/
def mkScheduleDoc (docId : Nat) (req : BookingRequest)
    (sessions : List ClassSession) : ClassScheduleDoc :=
  { docId := docId
    assignedRoom := req.assignedRoom
    assignedInstructor := req.assignedInstructor
    preGeneratedClassSessions := sessions.enum.map (fun s => ⟨s.1, s.2.sessionStartDateTime, s.2.sessionEndDateTime⟩)
    exceptions := [] }

/-- Outcome of one `createClassSeries` request. -/
inductive CreateOutcome where
  | committed (sessions : List ClassSession)
  | rejectedConflict (r : ConflictReport)
  | rejectedError (e : GenError)
deriving DecidableEq

/-- `createClassSeries` run to completion with no interleaving: generate,
conflict-check, and (absent a conflict) persist.  Returns the new store and
the outcome. -/
def runCreate (now : Nat) (instructorName roomName : Nat → String)
    (freshId : Nat) (store : List ClassScheduleDoc) (req : BookingRequest) :
    List ClassScheduleDoc × CreateOutcome :=
  match generateAllClassSessions now req.body with
  | .error e => (store, .rejectedError e)
  | .ok generatedSessions =>
    match findDetailedSchedulingConflict store instructorName roomName
        generatedSessions req.assignedRoom req.assignedInstructor none with
    | some r => (store, .rejectedConflict r)
    | none => (store ++ [mkScheduleDoc freshId req generatedSessions], .committed generatedSessions)

/-- Per-request progress through `createClassSeries`.  The function body has
two awaited suspension points (the conflict-check query and the insert), so a
request can observe the store, and only later — after other requests have
run — commit what it checked. -/
inductive ReqPhase where
  | pending
  | checked (sessions : List ClassSession) (conflict : Option ConflictReport)
  | committed (sessions : List ClassSession)
  | rejectedConflict (r : ConflictReport)
  | rejectedError (e : GenError)
deriving DecidableEq

/-- State of the whole service: the `ClassSchedule` collection plus each
in-flight request's phase. -/
structure CoordState where
  store : List ClassScheduleDoc
  phases : Nat → ReqPhase

/-- The read segment of `createClassSeries`: synchronous generation followed
by the conflict query against the current store. -/
def runCheck (now : Nat) (instructorName roomName : Nat → String)
    (store : List ClassScheduleDoc) (req : BookingRequest) : ReqPhase :=
  match generateAllClassSessions now req.body with
  | .error e => .rejectedError e
  | .ok generatedSessions =>
    .checked generatedSessions
      (findDetailedSchedulingConflict store instructorName roomName
        generatedSessions req.assignedRoom req.assignedInstructor none)

/-- Pointwise update of the phase map. -/
def setPhase (phases : Nat → ReqPhase) (i : Nat) (ph : ReqPhase) : Nat → ReqPhase :=
  fun j => if j == i then ph else phases j

/-- Interleaving semantics of `n` concurrent `createClassSeries` requests.
Each request atomically runs its generate-and-check segment against the store
it currently sees, and in a separate later step resolves: a clean check
inserts the document built from the sessions it checked; a reported conflict
rejects.  No lock is taken and the check is not re-run at commit time, which
is exactly what the source does. -/
inductive CoordStep (now : Nat) (instructorName roomName : Nat → String)
    (n : Nat) (reqs : Nat → BookingRequest) : CoordState → CoordState → Prop where
  | check (i : Nat) (hi : i < n) (st : CoordState) (hp : st.phases i = .pending) :
      CoordStep now instructorName roomName n reqs st
        ⟨st.store, setPhase st.phases i (runCheck now instructorName roomName st.store (reqs i))⟩
  | commit (i : Nat) (hi : i < n) (st : CoordState) (sessions : List ClassSession)
      (hp : st.phases i = .checked sessions none) :
      CoordStep now instructorName roomName n reqs st
        ⟨st.store ++ [mkScheduleDoc (1000 + i) (reqs i) sessions],
         setPhase st.phases i (.committed sessions)⟩
  | reject (i : Nat) (hi : i < n) (st : CoordState) (sessions : List ClassSession)
      (r : ConflictReport) (hp : st.phases i = .checked sessions (some r)) :
      CoordStep now instructorName roomName n reqs st
        ⟨st.store, setPhase st.phases i (.rejectedConflict r)⟩

/-- Reachability under the interleaving semantics. -/
def CoordReachable (now : Nat) (instructorName roomName : Nat → String)
    (n : Nat) (reqs : Nat → BookingRequest) : CoordState → CoordState → Prop :=
  Relation.ReflTransGen (CoordStep now instructorName roomName n reqs)

/-- Semantic statement of "some stored series conflicts with the candidate
set on this resource": a series whose resource field matches, that is not the
excluded series, and one of whose stored sessions overlaps one candidate
under the detector's half-open predicate. -/
def resourceConflictExists (getField : ClassScheduleDoc → Nat) (id : Nat)
    (ignoreSeriesId : Option Nat) (requested : List ClassSession)
    (store : List ClassScheduleDoc) : Prop :=
  ∃ s ∈ store, getField s = id ∧
    (∀ ign, ignoreSeriesId = some ign → s.docId ≠ ign) ∧
    ∃ ex ∈ s.preGeneratedClassSessions, ∃ ns ∈ requested,
      ns.sessionStartDateTime < ex.sessionEndDateTime ∧
      ns.sessionEndDateTime > ex.sessionStartDateTime

/-! ### Concrete fixtures used by witnesses and counterexamples

Day number 19723 is 2024-01-01, so minute 28401660 is 2024-01-01 09:00 and
28401720 is 2024-01-01 10:00.  Day number 20120 is 2025-02-01. -/

/-- A daily payload for 2024-01-01 with one 09:00–10:00 slot and no
`seriesEndDate`. -/
def genPayloadDailyNoEnd : GenPayload :=
  { seriesStartDate := .valid 19723
    seriesEndDate := .missing
    recurrenceType := "daily"
    dailyTimeSlots := [⟨some (9, 0), some (10, 0)⟩] }

/-- Request used in the concurrency analysis: a one-off class in room 10 with
instructor 20 on 2024-01-01, 09:00–10:00. -/
def reqC1 : BookingRequest :=
  { body := { seriesStartDate := .valid 19723
              seriesEndDate := .missing
              recurrenceType := "none"
              dailyTimeSlots := [⟨some (9, 0), some (10, 0)⟩] }
    assignedRoom := 10
    assignedInstructor := 20 }

/-- Phase map after the interleaving check-0, check-1, commit-0, commit-1 of
two copies of `reqC1`. -/
def phasesC1 : Nat → ReqPhase :=
  setPhase (setPhase (setPhase (setPhase (fun _ => .pending) 0
    (runCheck 0 (fun _ => "") (fun _ => "") [] reqC1)) 1
    (runCheck 0 (fun _ => "") (fun _ => "") [] reqC1)) 0
    (.committed [⟨28401660, 28401720⟩])) 1
    (.committed [⟨28401660, 28401720⟩])

/-- State in which both concurrent copies of `reqC1` have committed. -/
def finalC1 : CoordState :=
  ⟨[mkScheduleDoc 1000 reqC1 [⟨28401660, 28401720⟩],
    mkScheduleDoc 1001 reqC1 [⟨28401660, 28401720⟩]], phasesC1⟩

/-- A stored series occupying instructor 20 (room 99) on minutes 550–610 of
day zero. -/
def docInstructorBusy : ClassScheduleDoc := ⟨1, 99, 20, [⟨0, 550, 610⟩], []⟩

/-- A stored series occupying room 10 (instructor 98) on minutes 500–560 of
day zero. -/
def docRoomBusy : ClassScheduleDoc := ⟨2, 10, 98, [⟨0, 500, 560⟩], []⟩

/-! ## General lemmas about the generator -/

theorem sessionFromSlot_eq (now : Nat) (d : Nat) (slot : TimeSlot) :
    sessionFromSlot now d slot = (validSessionFromSlot d slot).bind
      (fun s => if now + 30 ≤ s.sessionStartDateTime then some s else none) := by
  simp only [sessionFromSlot, validSessionFromSlot]
  cases createValidClassSessionFromDateAndTimes d slot <;> rfl

theorem filterMap_sessionFromSlot (now : Nat) (d : Nat) (slots : List TimeSlot) :
    slots.filterMap (sessionFromSlot now d) =
      (slots.filterMap (validSessionFromSlot d)).filter
        (fun s => now + 30 ≤ s.sessionStartDateTime) := by
  induction slots with
  | nil => rfl
  | cons slot rest ih =>
    simp only [List.filterMap_cons]
    rw [sessionFromSlot_eq]
    cases h : validSessionFromSlot d slot with
    | none => simpa using ih
    | some s =>
      simp only [Option.bind_some]
      by_cases hl : now + 30 ≤ s.sessionStartDateTime
      · simp [hl, List.filter_cons, ih]
      · simp [hl, List.filter_cons, ih]

theorem filter_flatMap {α β : Type} (xs : List α) (g : α → List β) (q : β → Bool) :
    (xs.flatMap g).filter q = xs.flatMap (fun x => (g x).filter q) := by
  induction xs with
  | nil => rfl
  | cons x rest ih => simp [List.flatMap_cons, List.filter_append, ih]

theorem flatMap_guard_filter (now : Nat) (slots : List TimeSlot)
    (X : List Nat) (c : Nat → Bool) :
    X.flatMap (fun d => if c d then slots.filterMap (sessionFromSlot now d) else []) =
      (X.flatMap (fun d => if c d then slots.filterMap (validSessionFromSlot d) else [])).filter
        (fun s => now + 30 ≤ s.sessionStartDateTime) := by
  rw [filter_flatMap]
  congr 1
  funext d
  cases h : c d <;> simp [filterMap_sessionFromSlot]

theorem flatMap_manual_filter (now : Nat) (slots : List TimeSlot)
    (X : List (Option Nat)) :
    X.flatMap (fun md => match md with
      | none => []
      | some d => slots.filterMap (sessionFromSlot now d)) =
      (X.flatMap (fun md => match md with
        | none => []
        | some d => slots.filterMap (validSessionFromSlot d))).filter
        (fun s => now + 30 ≤ s.sessionStartDateTime) := by
  rw [filter_flatMap]
  congr 1
  funext md
  cases md <;> simp [filterMap_sessionFromSlot]

/-- `generateAllClassSessions` in closed form: the pre-walk checks, then the
lead-time filter over the validated candidates, then the mode's empty-result
safety net. -/
theorem generateAllClassSessions_characterization (now : Nat) (p : GenPayload) :
    generateAllClassSessions now p =
      match genPrecheck p with
      | some e => .error e
      | none =>
        let l := (candidateSessions p).filter (fun s => now + 30 ≤ s.sessionStartDateTime)
        if l.isEmpty then .error (genEmptyError p) else .ok l := by
  simp only [generateAllClassSessions, genPrecheck, genEmptyError, candidateSessions]
  cases h1 : p.dailyTimeSlots.isEmpty
  · simp only [Bool.false_eq_true, if_false]
    cases h2 : p.recurrenceType == "custom"
    · simp only [Bool.false_eq_true, if_false]
      cases h3 : p.seriesStartDate.toDate with
      | none => rfl
      | some s =>
        simp only []
        rw [flatMap_guard_filter]
    · simp only [if_true]
      cases h4 : p.manuallyChosenDates.isEmpty
      · simp only [Bool.not_false, if_true]
        rw [flatMap_manual_filter]
      · simp only [Bool.not_true, Bool.false_eq_true, if_false]
        cases h5 : (p.seriesStartDate == DateField.missing || p.seriesEndDate == DateField.missing)
        · simp only [Bool.false_eq_true, if_false]
          cases h6 : p.seriesStartDate.toDate with
          | none => rfl
          | some s =>
            cases h7 : p.seriesEndDate.toDate with
            | none => rfl
            | some e =>
              simp only []
              cases h8 : decide (e < s)
              · simp only [decide_eq_false_iff_not] at h8
                simp only [if_neg h8]
                rw [flatMap_guard_filter]
              · simp only [decide_eq_true_eq] at h8
                simp only [if_pos h8]
        · simp only [if_true]
  · simp only [if_true]

/-- The pre-walk checks can only produce these error kinds; in particular the
per-pair validation errors of the helper never appear there. -/
theorem genPrecheck_mem (p : GenPayload) (e : GenError) (h : genPrecheck p = some e) :
    e = .timeSlotsRequired ∨ e = .customPatternMissingDates ∨
    e = .customPatternInvalidDate ∨ e = .customStartAfterEnd ∨
    e = .invalidSeriesStartDate := by
  unfold genPrecheck at h
  repeat' split at h
  all_goals simp_all

/-! ## General lemmas about the conflict detector -/

/-- The Mongo conflict query of one resource succeeds exactly when a
semantically conflicting series exists for that resource. -/
theorem resourceConflictExists_iff (getField : ClassScheduleDoc → Nat) (id : Nat)
    (ig : Option Nat) (requested : List ClassSession) (store : List ClassScheduleDoc) :
    resourceConflictExists getField id ig requested store ↔
      (store.find? (baseQueryMatches getField id ig requested)).isSome := by
  rw [List.find?_isSome]
  cases ig <;>
    simp [resourceConflictExists, baseQueryMatches, elemMatchOverlap, sessionsOverlap,
      List.any_eq_true, and_assoc, bne_iff_ne]

/-- Every session committed by `createClassSeries` is present, with its exact
start and end, among the stored subdocuments of the persisted document. -/
theorem mem_mkScheduleDoc_sessions {a : ClassSession} {sessions : List ClassSession}
    (ha : a ∈ sessions) (docId : Nat) (req : BookingRequest) :
    ∃ st ∈ (mkScheduleDoc docId req sessions).preGeneratedClassSessions,
      st.sessionStartDateTime = a.sessionStartDateTime ∧
      st.sessionEndDateTime = a.sessionEndDateTime := by
  obtain ⟨i, hi, hget⟩ := List.mem_iff_getElem.mp ha
  refine ⟨⟨i, a.sessionStartDateTime, a.sessionEndDateTime⟩, ?_, rfl, rfl⟩
  simp only [mkScheduleDoc]
  apply List.mem_map.mpr
  refine ⟨(i, a), ?_, rfl⟩
  rw [← hget]
  apply List.mem_iff_getElem.mpr
  refine ⟨i, ?_, ?_⟩
  · simpa using hi
  · simp [List.getElem_enum]

/-- Completeness of the detector: if either resource has a semantically
conflicting series in the store, the detector reports a conflict. -/
theorem findDetailed_isSome (store : List ClassScheduleDoc) (inm rnm : Nat → String)
    (requested : List ClassSession) (roomId instrId : Nat) (ig : Option Nat)
    (h : resourceConflictExists (·.assignedInstructor) instrId ig requested store ∨
         resourceConflictExists (·.assignedRoom) roomId ig requested store) :
    (findDetailedSchedulingConflict store inm rnm requested roomId instrId ig).isSome := by
  have hIiff := resourceConflictExists_iff (·.assignedInstructor) instrId ig requested store
  have hRiff := resourceConflictExists_iff (·.assignedRoom) roomId ig requested store
  cases hI : store.find? (baseQueryMatches (·.assignedInstructor) instrId ig requested) with
  | some ic =>
    cases hR : store.find? (baseQueryMatches (·.assignedRoom) roomId ig requested) with
    | some rc => simp [findDetailedSchedulingConflict, hI, hR]
    | none => simp [findDetailedSchedulingConflict, hI, hR]
  | none =>
    cases hR : store.find? (baseQueryMatches (·.assignedRoom) roomId ig requested) with
    | some rc => simp [findDetailedSchedulingConflict, hI, hR]
    | none =>
      rw [hI] at hIiff
      rw [hR] at hRiff
      simp only [Option.isSome_none] at hIiff hRiff
      rcases h with h | h
      · exact absurd h (by simp [hIiff])
      · exact absurd h (by simp [hRiff])

/-! ## General list lemmas -/

theorem flatMap_congr {α β : Type} (xs : List α) (f g : α → List β)
    (h : ∀ x ∈ xs, f x = g x) : xs.flatMap f = xs.flatMap g := by
  induction xs with
  | nil => rfl
  | cons x rest ih =>
    simp only [List.flatMap_cons]
    rw [h x (List.mem_cons_self x rest), ih (fun y hy => h y (List.mem_cons_of_mem x hy))]

theorem flatMap_last_singleton {α : Type} (n : Nat) (hn : 0 < n) (L : Nat → List α) :
    (List.range n).flatMap (fun k => if k + 1 = n then L k else []) = L (n - 1) := by
  obtain ⟨m, rfl⟩ : ∃ m, n = m + 1 := ⟨n - 1, by omega⟩
  rw [List.range_succ, List.flatMap_append]
  have h1 : (List.range m).flatMap (fun k => if k + 1 = m + 1 then L k else []) = [] := by
    rw [List.flatMap_eq_nil_iff]
    intro k hk
    rw [List.mem_range] at hk
    rw [if_neg (by omega)]
  rw [h1]
  simp

/-! ## Claim theorems -/

/-- Claim C3: the Conflict Detector reports two sessions as overlapping iff
`A.start < B.end` and `A.end > B.start`; a candidate `[09:00,10:00)` against
a stored `[10:00,11:00)` is never a conflict, while `[09:00,10:01)` against
`[10:00,11:00)` is one. -/
theorem conflict_overlap_iff_boundary :
    (∀ (A B : ClassSession) (docId subId roomId instrId : Nat) (inm rnm : Nat → String),
      (findDetailedSchedulingConflict
        [⟨docId, roomId, instrId, [⟨subId, B.sessionStartDateTime, B.sessionEndDateTime⟩], []⟩]
        inm rnm [A] roomId instrId none).isSome
        ↔ (A.sessionStartDateTime < B.sessionEndDateTime ∧
           A.sessionEndDateTime > B.sessionStartDateTime)) ∧
    findDetailedSchedulingConflict
      [⟨1, 10, 20, [⟨0, 600, 660⟩], []⟩] (fun _ => "I") (fun _ => "R")
      [⟨540, 600⟩] 10 20 none = none ∧
    (findDetailedSchedulingConflict
      [⟨1, 10, 20, [⟨0, 600, 660⟩], []⟩] (fun _ => "I") (fun _ => "R")
      [⟨540, 601⟩] 10 20 none).isSome = true := by
  refine ⟨?_, by rfl, by rfl⟩
  intro A B docId subId roomId instrId inm rnm
  by_cases hov : A.sessionStartDateTime < B.sessionEndDateTime ∧
      A.sessionEndDateTime > B.sessionStartDateTime
  · simp [findDetailedSchedulingConflict, baseQueryMatches, elemMatchOverlap,
      sessionsOverlap, List.find?, hov.1, hov.2]
  · simp only [not_and_or, not_lt] at hov
    rcases hov with h | h
    · simp [findDetailedSchedulingConflict, baseQueryMatches, elemMatchOverlap,
        sessionsOverlap, List.find?, Nat.not_lt.mpr h]
    · simp [findDetailedSchedulingConflict, baseQueryMatches, elemMatchOverlap,
        sessionsOverlap, List.find?, Nat.not_lt.mpr h]

/-- Claim C4 (amended): whole-series reconciliation replaces each generated
session matched by a `modified` exception and then removes each session whose
*post-modification* start matches a `cancelled` exception — the cancellation
filter runs after the modification map, keyed on the possibly-replaced start,
not on the generated start. -/
theorem reconcileExceptions_single_pass (exceptions : List ExceptionRec)
    (newSessions : List ClassSession) :
    reconcileExceptions exceptions newSessions =
      newSessions.filterMap (fun sess =>
        let moved := applyManualEdit exceptions sess
        if cancelledMatch exceptions moved then none else some moved) := by
  induction newSessions with
  | nil => rfl
  | cons sess rest ih =>
    simp only [reconcileExceptions, List.map_cons, List.filter_cons, List.filterMap_cons] at *
    cases h : cancelledMatch exceptions (applyManualEdit exceptions sess)
    · simp [h, ih, reconcileExceptions]
    · simp [h, ih, reconcileExceptions]

/-- Claim C4, counterexample: a generated session at minute 100 whose
`modified` exception moves it to 200, in the presence of a `cancelled`
exception keyed at 200, is dropped by the code — while the specification's
wording (cancellations match the *generated* start) would keep the moved
session. -/
theorem reconcile_cancellation_after_move_counterexample :
    reconcileExceptions
      [⟨100, "modified", some 200, some 260, ""⟩, ⟨200, "cancelled", none, none, ""⟩]
      [⟨100, 160⟩] = [] ∧
    reconcileExceptionsSpec
      [⟨100, "modified", some 200, some 260, ""⟩, ⟨200, "cancelled", none, none, ""⟩]
      [⟨100, 160⟩] = [⟨200, 260⟩] := by
  exact ⟨rfl, rfl⟩

/-- Claim C2: moving the session of 2024-01-01 09:00 to 2024-01-02 09:00 and
then moving the same session again to 2024-01-03 09:00 leaves TWO exception
records — the second edit looks the exception up by the session's *current*
(already moved) start, misses the record keyed at the original start, and
appends a fresh record instead of updating in place. -/
theorem updateSingleInstance_reedit_appends_second_exception :
    (match updateSingleInstance
        [⟨7, 1, 2, [⟨0, 28401660, 28401720⟩], []⟩] (fun _ => "") (fun _ => "")
        7 0 28403100 28403160 none with
      | .ok s1 =>
        match updateSingleInstance [s1] (fun _ => "") (fun _ => "")
            7 0 28404540 28404600 none with
        | .ok s2 => some (s2.exceptions.map (fun ex => (ex.originalStart, ex.status, ex.newStart)))
        | _ => none
      | _ => none) =
    some [(28401660, "modified", some 28403100), (28403100, "modified", some 28404540)] := by
  rfl

/-- Claim C5 (amended): a (date, time-window) pair with end ≤ start or with a
duration under 30 minutes raises a range error inside the per-slot validator,
but every generation path catches it per pair (a logged diagnostic) — the run
as a whole never surfaces those errors; it can only fail later with the
mode's empty-result error if nothing remains. -/
theorem generator_never_surfaces_slot_range_errors (now : Nat) (p : GenPayload) :
    generateAllClassSessions now p ≠ .error .invalidTimeRange ∧
    generateAllClassSessions now p ≠ .error .durationTooShort := by
  rw [generateAllClassSessions_characterization]
  cases hpre : genPrecheck p with
  | some e =>
    rcases genPrecheck_mem p e hpre with h | h | h | h | h <;> subst h <;> simp
  | none =>
    simp only []
    constructor
    · split
      · simp [genEmptyError]
        split <;> simp
      · simp
    · split
      · simp [genEmptyError]
        split <;> simp
      · simp

/-- Claim C5, counterexample: a run whose first slot is the invalid
10:00→10:00 (end = start, a range-error pair) still succeeds, returning only
the session of the valid second slot — the range error is not terminal and is
not surfaced. -/
theorem invalid_slot_skipped_counterexample :
    createValidClassSessionFromDateAndTimes 19723 ⟨some (10, 0), some (10, 0)⟩ =
      .error .invalidTimeRange ∧
    generateAllClassSessions 0
      { seriesStartDate := .valid 19723
        seriesEndDate := .valid 19723
        recurrenceType := "daily"
        dailyTimeSlots := [⟨some (10, 0), some (10, 0)⟩, ⟨some (10, 0), some (11, 0)⟩] } =
      .ok [⟨28401720, 28401780⟩] := by
  exact ⟨rfl, rfl⟩

/-- Claim C6 (amended): the generator errors on empty `timeWindows` in every
mode, and errors on a missing `seriesEnd` only in custom pattern mode; for
the standard repeating types (daily / weekly / monthly) a missing `seriesEnd`
is not an error — the walk boundary silently becomes the start date. -/
theorem generator_input_error_conditions :
    (∀ (now : Nat) (p : GenPayload), p.dailyTimeSlots = [] →
      generateAllClassSessions now p = .error .timeSlotsRequired) ∧
    (∀ (now : Nat) (p : GenPayload), p.dailyTimeSlots ≠ [] →
      p.recurrenceType = "custom" → p.manuallyChosenDates = [] →
      (p.seriesStartDate = .missing ∨ p.seriesEndDate = .missing) →
      generateAllClassSessions now p = .error .customPatternMissingDates) ∧
    (∀ (now : Nat) (p : GenPayload) (d : Nat), p.recurrenceType ≠ "custom" →
      p.seriesStartDate = .valid d → p.seriesEndDate = .missing →
      generateAllClassSessions now p =
        generateAllClassSessions now { p with seriesEndDate := .valid d }) := by
  refine ⟨?_, ?_, ?_⟩
  · intro now p h
    simp [generateAllClassSessions, h]
  · intro now p hslots htype hman hmiss
    have h1 : p.dailyTimeSlots.isEmpty = false := by
      cases hl : p.dailyTimeSlots <;> simp_all
    have h2 : (p.recurrenceType == "custom") = true := by simp [htype]
    have h3 : p.manuallyChosenDates.isEmpty = true := by simp [hman]
    have h4 : (p.seriesStartDate == DateField.missing ||
               p.seriesEndDate == DateField.missing) = true := by
      rcases hmiss with h | h <;> simp [h]
    simp [generateAllClassSessions, h1, h2, h3, h4]
  · intro now p d htype hstart hend
    have h2 : (p.recurrenceType == "custom") = false := by
      simp [htype]
    simp only [generateAllClassSessions, h2, standardBoundary, hstart, hend,
      DateField.toDate, Bool.false_eq_true, if_false]
    rfl

/-- Claim C6, witness: the three amended conditions at concrete inputs — an
empty slot list errors, a custom-pattern payload with missing dates errors,
and a daily payload with missing `seriesEnd` behaves exactly as if the end
were the start date. -/
theorem generator_input_error_conditions_witness :
    generateAllClassSessions 0 { recurrenceType := "daily" } =
      .error .timeSlotsRequired ∧
    generateAllClassSessions 0
      { recurrenceType := "custom"
        dailyTimeSlots := [⟨some (9, 0), some (10, 0)⟩] } =
      .error .customPatternMissingDates ∧
    generateAllClassSessions 0 genPayloadDailyNoEnd =
      generateAllClassSessions 0 { genPayloadDailyNoEnd with seriesEndDate := .valid 19723 } :=
  ⟨generator_input_error_conditions.1 0 _ rfl,
   generator_input_error_conditions.2.1 0 _ (by simp) rfl rfl (Or.inl rfl),
   generator_input_error_conditions.2.2 0 genPayloadDailyNoEnd 19723
     (by simp [genPayloadDailyNoEnd]) rfl rfl⟩

/-- Claim C6, counterexample: a daily rule with `seriesEnd` absent does not
fail with an input error — it succeeds, generating the start day's session. -/
theorem missing_seriesEnd_not_error_counterexample :
    genPayloadDailyNoEnd.seriesEndDate = .missing ∧
    genPayloadDailyNoEnd.recurrenceType = "daily" ∧
    generateAllClassSessions 0 genPayloadDailyNoEnd = .ok [⟨28401660, 28401720⟩] := by
  exact ⟨rfl, rfl, rfl⟩

/-- Claim C10: for any payload with a non-empty slot list, a parsable start
date and a recurrence type outside the five supported values, no cursor day
matches, so the generator terminates with the final empty-result error
("No future sessions could be generated") rather than returning sessions or
reporting the unknown type distinctly. -/
theorem unknown_recurrence_type_empty_result (now : Nat) (p : GenPayload) (d : Nat)
    (hslots : p.dailyTimeSlots ≠ [])
    (hstart : p.seriesStartDate = .valid d)
    (hni : p.recurrenceType ∉ (["none", "daily", "weekly", "monthly", "custom"] : List String)) :
    generateAllClassSessions now p = .error .noFutureSessions := by
  simp only [List.mem_cons, List.not_mem_nil, or_false, not_or] at hni
  obtain ⟨hn1, hn2, hn3, hn4, hn5⟩ := hni
  have h1 : p.dailyTimeSlots.isEmpty = false := by
    cases hl : p.dailyTimeSlots <;> simp_all
  have hinc : ∀ day, shouldIncludeDay p d day = false := by
    intro day
    simp [shouldIncludeDay, hn1, hn2, hn3, hn4]
  rw [generateAllClassSessions_characterization]
  have hpre : genPrecheck p = none := by
    simp [genPrecheck, h1, hn5, hstart, DateField.toDate]
  rw [hpre]
  have hcand : candidateSessions p = [] := by
    simp only [candidateSessions, hn5, beq_iff_eq, if_neg, hstart, DateField.toDate]
    simp [hinc]
  simp [hcand, genEmptyError, hn5]

/-- Claim C10, witness: a `"yearly"` payload with a valid start and one slot
throws the empty-result error. -/
theorem unknown_recurrence_type_empty_result_witness :
    generateAllClassSessions 0
      { seriesStartDate := .valid 19723
        recurrenceType := "yearly"
        dailyTimeSlots := [⟨some (9, 0), some (10, 0)⟩] } =
      .error .noFutureSessions :=
  unknown_recurrence_type_empty_result 0 _ 19723 (by simp) rfl (by decide)

/-- Claim C7: the successful result is exactly the validated candidate list
filtered by "starts at or after generation time + 30 minutes"; a candidate at
or past the buffer is never excluded by this filter, every returned session
satisfies the buffer, and if the filter empties the result (while the
pre-walk checks pass) the generator fails with the mode's empty-result
error. -/
theorem lead_time_filter_characterization :
    (∀ (now : Nat) (p : GenPayload) (l : List ClassSession),
      generateAllClassSessions now p = .ok l →
      l = (candidateSessions p).filter (fun s => now + 30 ≤ s.sessionStartDateTime)) ∧
    (∀ (now : Nat) (p : GenPayload) (l : List ClassSession) (s : ClassSession),
      generateAllClassSessions now p = .ok l →
      s ∈ candidateSessions p → now + 30 ≤ s.sessionStartDateTime → s ∈ l) ∧
    (∀ (now : Nat) (p : GenPayload) (l : List ClassSession) (s : ClassSession),
      generateAllClassSessions now p = .ok l →
      s ∈ l → now + 30 ≤ s.sessionStartDateTime) ∧
    (∀ (now : Nat) (p : GenPayload),
      genPrecheck p = none →
      (candidateSessions p).filter (fun s => now + 30 ≤ s.sessionStartDateTime) = [] →
      generateAllClassSessions now p = .error (genEmptyError p)) := by
  have key : ∀ (now : Nat) (p : GenPayload) (l : List ClassSession),
      generateAllClassSessions now p = .ok l →
      l = (candidateSessions p).filter (fun s => now + 30 ≤ s.sessionStartDateTime) := by
    intro now p l h
    rw [generateAllClassSessions_characterization] at h
    cases hpre : genPrecheck p with
    | some e => rw [hpre] at h; simp at h
    | none =>
      rw [hpre] at h
      simp only [] at h
      split at h
      · simp at h
      · exact (Except.ok.injEq _ _ ).mp h |>.symm
  refine ⟨key, ?_, ?_, ?_⟩
  · intro now p l s h hs hl
    rw [key now p l h]
    simp only [List.mem_filter, decide_eq_true_eq]
    exact ⟨hs, hl⟩
  · intro now p l s h hs
    rw [key now p l h] at hs
    simpa using (List.mem_filter.mp hs).2
  · intro now p hpre hempty
    rw [generateAllClassSessions_characterization, hpre]
    simp [hempty]

/-- Claim C7, witness: the filter characterization at a successful concrete
run, and the empty-result error when generation time pushes the buffer past
every candidate. -/
theorem lead_time_filter_characterization_witness :
    ([⟨28401660, 28401720⟩] : List ClassSession) =
      (candidateSessions genPayloadDailyNoEnd).filter
        (fun s => 0 + 30 ≤ s.sessionStartDateTime) ∧
    generateAllClassSessions 30000000 genPayloadDailyNoEnd =
      .error (genEmptyError genPayloadDailyNoEnd) :=
  ⟨lead_time_filter_characterization.1 0 genPayloadDailyNoEnd _ rfl,
   lead_time_filter_characterization.2.2.2 30000000 genPayloadDailyNoEnd rfl rfl⟩

/-- Claim C9: whenever conflict detection finds existing bookings, the report
names the offending resource(s) — the instructor when only the instructor
query matches, the room when only the room query matches, and both names
together (with the `field` tag set to the instructor field) when both
match. -/
theorem conflict_report_names_offending_resources (store : List ClassScheduleDoc)
    (inm rnm : Nat → String) (requested : List ClassSession)
    (roomId instrId : Nat) (ig : Option Nat) :
    (resourceConflictExists (·.assignedInstructor) instrId ig requested store ∧
       resourceConflictExists (·.assignedRoom) roomId ig requested store →
      ∃ rep, findDetailedSchedulingConflict store inm rnm requested roomId instrId ig =
          some rep ∧
        rep.field = "assignedInstructor" ∧
        rep.entity = .bothBusy (inm instrId) (rnm roomId)) ∧
    (resourceConflictExists (·.assignedInstructor) instrId ig requested store ∧
       ¬ resourceConflictExists (·.assignedRoom) roomId ig requested store →
      ∃ rep, findDetailedSchedulingConflict store inm rnm requested roomId instrId ig =
          some rep ∧
        rep.field = "assignedInstructor" ∧ rep.entity = .instructorBusy (inm instrId)) ∧
    (¬ resourceConflictExists (·.assignedInstructor) instrId ig requested store ∧
       resourceConflictExists (·.assignedRoom) roomId ig requested store →
      ∃ rep, findDetailedSchedulingConflict store inm rnm requested roomId instrId ig =
          some rep ∧
        rep.field = "assignedRoom" ∧ rep.entity = .roomBusy (rnm roomId)) := by
  have hIiff := resourceConflictExists_iff (·.assignedInstructor) instrId ig requested store
  have hRiff := resourceConflictExists_iff (·.assignedRoom) roomId ig requested store
  cases hI : store.find? (baseQueryMatches (·.assignedInstructor) instrId ig requested) with
  | none =>
    cases hR : store.find? (baseQueryMatches (·.assignedRoom) roomId ig requested) with
    | none =>
      rw [hI] at hIiff; rw [hR] at hRiff
      simp only [Option.isSome_none] at hIiff hRiff
      refine ⟨?_, ?_, ?_⟩ <;> intro h <;> simp [hIiff, hRiff] at h
    | some rc =>
      rw [hI] at hIiff; rw [hR] at hRiff
      simp only [Option.isSome_none, Option.isSome_some] at hIiff hRiff
      have hrc : rc.assignedRoom = roomId := by
        have := List.find?_some hR
        simp only [baseQueryMatches, Bool.and_eq_true, beq_iff_eq] at this
        exact this.1.1
      refine ⟨?_, ?_, ?_⟩ <;> intro h
      · exact absurd h.1 (by simp [hIiff])
      · exact absurd h.2 (by simp [hRiff])
      · refine ⟨⟨"assignedRoom", .roomBusy (rnm rc.assignedRoom),
          (rc.preGeneratedClassSessions.find? (fun existing =>
            requested.any (fun proposed => sessionsOverlap proposed existing))).map
            (fun s => (s.sessionStartDateTime, s.sessionEndDateTime))⟩, ?_, rfl, by simp [hrc]⟩
        simp only [findDetailedSchedulingConflict, hI, hR]
        rfl
  | some ic =>
    have hic : ic.assignedInstructor = instrId := by
      have := List.find?_some hI
      simp only [baseQueryMatches, Bool.and_eq_true, beq_iff_eq] at this
      exact this.1.1
    cases hR : store.find? (baseQueryMatches (·.assignedRoom) roomId ig requested) with
    | none =>
      rw [hI] at hIiff; rw [hR] at hRiff
      simp only [Option.isSome_none, Option.isSome_some] at hIiff hRiff
      refine ⟨?_, ?_, ?_⟩ <;> intro h
      · exact absurd h.2 (by simp [hRiff])
      · refine ⟨⟨"assignedInstructor", .instructorBusy (inm ic.assignedInstructor),
          (ic.preGeneratedClassSessions.find? (fun existing =>
            requested.any (fun proposed => sessionsOverlap proposed existing))).map
            (fun s => (s.sessionStartDateTime, s.sessionEndDateTime))⟩, ?_, rfl, by simp [hic]⟩
        simp only [findDetailedSchedulingConflict, hI, hR]
        rfl
      · exact absurd h.2 (by simp [hRiff])
    | some rc =>
      have hrc : rc.assignedRoom = roomId := by
        have := List.find?_some hR
        simp only [baseQueryMatches, Bool.and_eq_true, beq_iff_eq] at this
        exact this.1.1
      rw [hI] at hIiff; rw [hR] at hRiff
      simp only [Option.isSome_some] at hIiff hRiff
      refine ⟨?_, ?_, ?_⟩ <;> intro h
      · refine ⟨⟨"assignedInstructor",
          .bothBusy (inm ic.assignedInstructor) (rnm rc.assignedRoom),
          (ic.preGeneratedClassSessions.find? (fun existing =>
            requested.any (fun proposed => sessionsOverlap proposed existing))).map
            (fun s => (s.sessionStartDateTime, s.sessionEndDateTime))⟩, ?_, rfl,
          by simp [hic, hrc]⟩
        simp only [findDetailedSchedulingConflict, hI, hR]
        rfl
      · exact absurd (hRiff.mpr trivial) h.2
      · exact absurd (hIiff.mpr trivial) h.1

/-- Claim C9, witness: with one series busy on the instructor and a different
series busy on the room, both overlapping the candidate window, the report
names both resources and tags the instructor field. -/
theorem conflict_report_names_offending_resources_witness :
    ∃ rep, findDetailedSchedulingConflict [docInstructorBusy, docRoomBusy]
        (fun _ => "Alice") (fun _ => "Lab") [⟨540, 600⟩] 10 20 none = some rep ∧
      rep.field = "assignedInstructor" ∧
      rep.entity = .bothBusy "Alice" "Lab" :=
  (conflict_report_names_offending_resources [docInstructorBusy, docRoomBusy]
      (fun _ => "Alice") (fun _ => "Lab") [⟨540, 600⟩] 10 20 none).1
    ⟨⟨docInstructorBusy, by simp, rfl, fun ign h => Option.noConfusion h,
      ⟨0, 550, 610⟩, by simp [docInstructorBusy], ⟨540, 600⟩, by simp, by decide, by decide⟩,
     ⟨docRoomBusy, by simp, rfl, fun ign h => Option.noConfusion h,
      ⟨0, 500, 560⟩, by simp [docRoomBusy], ⟨540, 600⟩, by simp, by decide, by decide⟩⟩

/-- Claim C8: a Monthly rule with `selectedMonthDays = [31]` and one time
window, over a series range that is exactly the days of one February (`f` its
first day, `n ∈ {28, 29}` its length as the model's calendar reports it),
with generation time at least 30 minutes before the first slot of that
February, produces exactly one session, dated on February's last day: the
selected day 31 falls back to the month's last day. -/
theorem monthly_day31_february_fallback (now f n sh sm eh em : Nat)
    (hn : n = 28 ∨ n = 29)
    (hdate : ∀ k, k < n → dateOf (f + k) = 1 + k)
    (hlast : ∀ k, k < n → lastDayOfMonthNum (yearOf (f + k)) (monthOf (f + k)) = n)
    (hslot : sh * 60 + sm < eh * 60 + em)
    (hdur : 30 ≤ eh * 60 + em - (sh * 60 + sm))
    (hlead : now + 30 ≤ f * 1440 + (sh * 60 + sm)) :
    generateAllClassSessions now
      { seriesStartDate := .valid f
        seriesEndDate := .valid (f + n - 1)
        recurrenceType := "monthly"
        dailyTimeSlots := [⟨some (sh, sm), some (eh, em)⟩]
        selectedMonthDays := [31] } =
      .ok [⟨(f + n - 1) * 1440 + (sh * 60 + sm), (f + n - 1) * 1440 + (eh * 60 + em)⟩] := by
  set p : GenPayload :=
    { seriesStartDate := .valid f
      seriesEndDate := .valid (f + n - 1)
      recurrenceType := "monthly"
      dailyTimeSlots := [⟨some (sh, sm), some (eh, em)⟩]
      selectedMonthDays := [31] } with hp
  have hcancel : ∀ d : Nat, d * 1440 / 1440 = d :=
    fun d => Nat.mul_div_cancel d (by norm_num)
  have hvalid : ∀ d : Nat,
      createValidClassSessionFromDateAndTimes d ⟨some (sh, sm), some (eh, em)⟩ =
        .ok ⟨d * 1440 + (sh * 60 + sm), d * 1440 + (eh * 60 + em)⟩ := by
    intro d
    simp only [createValidClassSessionFromDateAndTimes, setClock, dayStart, hcancel]
    split_ifs with h1 h2
    · exact absurd h1 (by omega)
    · exact absurd h2 (by omega)
    · have e1 : d * 1440 + eh * 60 + em = d * 1440 + (eh * 60 + em) := by omega
      have e2 : d * 1440 + sh * 60 + sm = d * 1440 + (sh * 60 + sm) := by omega
      rw [e1, e2]
  have hinc : ∀ k, k < n → shouldIncludeDay p f (f + k) = ((1 + k : Nat) == n) := by
    intro k hk
    have h31 : ((1 + k : Nat) == 31) = false := by
      simp only [beq_eq_false_iff_ne, ne_eq]
      omega
    have hlt31 : decide (n < 31) = true := by
      simp only [decide_eq_true_eq]
      omega
    simp only [shouldIncludeDay, hp]
    simp only [isLastDayOfMonth, hdate k hk, hlast k hk, List.contains, List.elem_cons,
      List.elem_nil, List.any_cons, List.any_nil, h31, hlt31]
    simp
  have hpre : genPrecheck p = none := by
    rw [hp]
    rfl
  have hrange : f + n - 1 + 1 - f = n := by omega
  have hslots : p.dailyTimeSlots = [⟨some (sh, sm), some (eh, em)⟩] := by rw [hp]
  have hfilterMap : ∀ d : Nat,
      List.filterMap (validSessionFromSlot d) p.dailyTimeSlots =
        [⟨d * 1440 + (sh * 60 + sm), d * 1440 + (eh * 60 + em)⟩] := by
    intro d
    rw [hslots]
    simp only [List.filterMap_cons, List.filterMap_nil, validSessionFromSlot, hvalid d]
  have hcand : candidateSessions p =
      [⟨(f + n - 1) * 1440 + (sh * 60 + sm), (f + n - 1) * 1440 + (eh * 60 + em)⟩] := by
    have hmonne : (("monthly" : String) == "none") = false := by rfl
    have hmoncu : (("monthly" : String) == "custom") = false := by rfl
    simp only [candidateSessions, hp, hmoncu, Bool.false_eq_true, if_false,
      DateField.toDate, standardDays, standardBoundary, hmonne, dayRange, hrange]
    rw [← hp, List.flatMap_map]
    have hcong : ∀ k ∈ List.range n,
        (if shouldIncludeDay p f (f + k) = true then
          List.filterMap (validSessionFromSlot (f + k)) p.dailyTimeSlots
        else []) =
        (if k + 1 = n then
          [(⟨(f + k) * 1440 + (sh * 60 + sm), (f + k) * 1440 + (eh * 60 + em)⟩ : ClassSession)]
        else []) := by
      intro k hk
      rw [List.mem_range] at hk
      rw [hinc k hk, hfilterMap (f + k)]
      by_cases hkn : k + 1 = n
      · have ht : ((1 + k : Nat) == n) = true := by
          simp only [beq_iff_eq]
          omega
        rw [ht, if_pos rfl, if_pos hkn]
      · have hf' : ((1 + k : Nat) == n) = false := by
          simp only [beq_eq_false_iff_ne, ne_eq]
          omega
        rw [hf', if_neg hkn]
        simp
    rw [flatMap_congr _ _ _ hcong,
      flatMap_last_singleton n (by omega)
        (fun k => [(⟨(f + k) * 1440 + (sh * 60 + sm),
          (f + k) * 1440 + (eh * 60 + em)⟩ : ClassSession)])]
    have heq : f + (n - 1) = f + n - 1 := by omega
    rw [heq]
  rw [generateAllClassSessions_characterization, hpre]
  simp only []
  rw [hcand]
  have hlead2 : decide (now + 30 ≤ (f + n - 1) * 1440 + (sh * 60 + sm)) = true := by
    simp only [decide_eq_true_eq]
    have h1 : f ≤ f + n - 1 := by omega
    have h2 : f * 1440 ≤ (f + n - 1) * 1440 := Nat.mul_le_mul_right 1440 h1
    omega
  simp [List.filter, hlead2]

/-- Claim C8, witness: February 2025 (day 20120 is 2025-02-01, 28 days) with
one 09:00–10:00 window and `selectedMonthDays = [31]` yields exactly the
2025-02-28 09:00–10:00 session. -/
theorem monthly_day31_february_fallback_witness :
    generateAllClassSessions 0
      { seriesStartDate := .valid 20120
        seriesEndDate := .valid (20120 + 28 - 1)
        recurrenceType := "monthly"
        dailyTimeSlots := [⟨some (9, 0), some (10, 0)⟩]
        selectedMonthDays := [31] } =
      .ok [⟨(20120 + 28 - 1) * 1440 + (9 * 60 + 0), (20120 + 28 - 1) * 1440 + (10 * 60 + 0)⟩] :=
  monthly_day31_february_fallback 0 20120 28 9 0 10 0 (Or.inl rfl)
    (by decide) (by decide) (by decide) (by decide) (by decide)

/-- Claim C1 (amended): with no lock and no re-check in the code, the
mutual-exclusion guarantee holds only for non-interleaved executions: if one
`createClassSeries` request commits and a second request whose generated
sessions overlap the first's on a shared resource runs entirely afterwards,
the second is rejected with a conflict. -/
theorem createClassSeries_sequential_mutual_exclusion (now : Nat)
    (inm rnm : Nat → String) (id1 id2 : Nat)
    (store store1 : List ClassScheduleDoc) (req1 req2 : BookingRequest)
    (sess1 sess2 : List ClassSession)
    (h1 : runCreate now inm rnm id1 store req1 = (store1, .committed sess1))
    (h2 : generateAllClassSessions now req2.body = .ok sess2)
    (hshare : req2.assignedRoom = req1.assignedRoom ∨
              req2.assignedInstructor = req1.assignedInstructor)
    (hov : ∃ a ∈ sess1, ∃ b ∈ sess2,
      b.sessionStartDateTime < a.sessionEndDateTime ∧
      b.sessionEndDateTime > a.sessionStartDateTime) :
    ∃ r, (runCreate now inm rnm id2 store1 req2).2 = .rejectedConflict r := by
  unfold runCreate at h1
  split at h1
  · simp at h1
  · rename_i g1 hg1
    split at h1
    · simp at h1
    · rename_i hc1
      simp only [Prod.mk.injEq, CreateOutcome.committed.injEq] at h1
      obtain ⟨hst, hsm⟩ := h1
      subst hsm
      unfold runCreate
      rw [h2]
      have hconf : (findDetailedSchedulingConflict store1 inm rnm sess2
          req2.assignedRoom req2.assignedInstructor none).isSome := by
        apply findDetailed_isSome
        obtain ⟨a, ha, b, hb, hov1, hov2⟩ := hov
        obtain ⟨st, hstm, hsts, hste⟩ := mem_mkScheduleDoc_sessions ha id1 req1
        rcases hshare with hr | hi
        · right
          refine ⟨mkScheduleDoc id1 req1 g1, ?_, ?_, ?_, st, hstm, b, hb, ?_, ?_⟩
          · rw [← hst]
            exact List.mem_append_right _ (List.mem_singleton.mpr rfl)
          · simpa [mkScheduleDoc] using hr.symm
          · intro ign hign
            cases hign
          · omega
          · omega
        · left
          refine ⟨mkScheduleDoc id1 req1 g1, ?_, ?_, ?_, st, hstm, b, hb, ?_, ?_⟩
          · rw [← hst]
            exact List.mem_append_right _ (List.mem_singleton.mpr rfl)
          · simpa [mkScheduleDoc] using hi.symm
          · intro ign hign
            cases hign
          · omega
          · omega
      cases hcf : findDetailedSchedulingConflict store1 inm rnm sess2
          req2.assignedRoom req2.assignedInstructor none with
      | none => rw [hcf] at hconf; simp at hconf
      | some r => exact ⟨r, by simp only [hcf]⟩

/-- Claim C1, witness: a sequential double booking of the same one-off slot
in the same room — the first request commits, the second is rejected with a
conflict. -/
theorem createClassSeries_sequential_mutual_exclusion_witness :
    ∃ r, (runCreate 0 (fun _ => "") (fun _ => "") 101
        ((runCreate 0 (fun _ => "") (fun _ => "") 100 [] reqC1).1) reqC1).2 =
      .rejectedConflict r :=
  createClassSeries_sequential_mutual_exclusion 0 (fun _ => "") (fun _ => "") 100 101
    [] ((runCreate 0 (fun _ => "") (fun _ => "") 100 [] reqC1).1) reqC1 reqC1
    [⟨28401660, 28401720⟩] [⟨28401660, 28401720⟩] rfl rfl (Or.inl rfl)
    ⟨⟨28401660, 28401720⟩, List.mem_singleton.mpr rfl,
     ⟨28401660, 28401720⟩, List.mem_singleton.mpr rfl, by decide, by decide⟩

/-- Claim C1, counterexample: under the interleaving semantics of the
unserialized check-then-commit pipeline, two concurrent copies of the same
booking (same room, same instructor, identical 09:00–10:00 window) both pass
conflict detection against the empty store and then both commit: the state
`finalC1`, in which requests 0 and 1 are both `committed` and the store holds
two series on room 10 with overlapping stored sessions, is reachable. -/
theorem coordinator_double_commit_counterexample :
    CoordReachable 0 (fun _ => "") (fun _ => "") 2 (fun _ => reqC1)
      ⟨[], fun _ => ReqPhase.pending⟩ finalC1 ∧
    finalC1.phases 0 = .committed [⟨28401660, 28401720⟩] ∧
    finalC1.phases 1 = .committed [⟨28401660, 28401720⟩] ∧
    finalC1.store.map (·.assignedRoom) = [10, 10] ∧
    elemMatchOverlap
      (mkScheduleDoc 1000 reqC1 [⟨28401660, 28401720⟩]).preGeneratedClassSessions
      [⟨28401660, 28401720⟩] = true := by
  refine ⟨?_, rfl, rfl, rfl, rfl⟩
  refine Relation.ReflTransGen.head (CoordStep.check 0 (by omega) _ rfl) ?_
  refine Relation.ReflTransGen.head (CoordStep.check 1 (by omega) _ rfl) ?_
  refine Relation.ReflTransGen.head
    (CoordStep.commit 0 (by omega) _ [⟨28401660, 28401720⟩] rfl) ?_
  exact Relation.ReflTransGen.single
    (CoordStep.commit 1 (by omega) _ [⟨28401660, 28401720⟩] rfl)

end ClassScheduler
